import Mathlib

/-!
Verification of `filter_bam.py` (mouse_filter): a shallow embedding in Lean 4
of the mate-pair assembler (`read_bam`), the classification predicates
(`both_mapped`, `mated`, `perfect_alignments`), the classifier branch structure
of `evaluate`, the orientation normalizer (`rev_comp` and the `is_reverse`
conditional of `print_fastq`), and the per-pair counter/output updates of
`evaluate`.

Records are pysam `AlignedSegment` views; only the fields the script reads are
modelled, each as an independent field (the BAM format imposes no coupling
between the unmapped flag and the other fields).  `read.cigar` in pysam is a
list of (operation, length) pairs and is `[]` when no CIGAR is stored, so it is
modelled as a plain list.  Generator semantics follow Python >= 3.7 (PEP 479):
a `StopIteration` raised by `bamiter.__next__()` inside the generator body of
`read_bam` surfaces as a `RuntimeError` to the caller, so the generator never
terminates normally in this script.
-/

namespace MouseFilter

/-- The per-record view of a pysam `AlignedSegment` restricted to the fields
`filter_bam.py` reads.  `is_supplementary` models `flag & 2048`; `tagNM` and
`tagnM` model the presence/value of `get_tag` for the bwa-style `NM` tag and
the STAR-style `nM` tag respectively (`none` = the lookup raises `KeyError`). -/
structure AlignedSegment where
  query_name : String
  is_secondary : Bool
  is_read1 : Bool
  is_read2 : Bool
  is_supplementary : Bool
  is_reverse : Bool
  is_unmapped : Bool
  rname : Int
  isize : Int
  cigar : List (Nat × Nat)
  tagNM : Option Int
  tagnM : Option Int
  seq : String
  qual : String
deriving DecidableEq

/-- Module-level constant `window = 500` (line 11). -/
def window : Nat := 500

/-- `both_mapped` (lines 84-85): `not (read1.is_unmapped and read2.is_unmapped)`.
Despite its name it is true for half-mapped pairs. -/
def both_mapped (read1 read2 : AlignedSegment) : Bool :=
  !(read1.is_unmapped && read2.is_unmapped)

/-- `mated` (lines 88-92): for `stype == 'DNA'` same reference id and
`abs(read1.isize) < window`; for any other `stype` same reference id only. -/
def mated (read1 read2 : AlignedSegment) (stype : String) : Bool :=
  if stype = "DNA" then
    (read1.rname == read2.rname) && decide (read1.isize.natAbs < window)
  else
    read1.rname == read2.rname

/-- The return expression of `perfect_alignments` (lines 109-110), evaluated
once edit distances `e1`, `e2` have been read from the tags:
`len(cigar) == 1 and cigar[0][0] == 0` for both records, and both edit
distances `<= mm`. -/
def perfectCheck (read1 read2 : AlignedSegment) (e1 e2 mm : Int) : Bool :=
  (read1.cigar.length == 1 && (read1.cigar.headD (1, 0)).1 == 0) &&
  (read2.cigar.length == 1 && (read2.cigar.headD (1, 0)).1 == 0) &&
  (decide (e1 ≤ mm) && decide (e2 ≤ mm))

/-- `perfect_alignments` (lines 95-110): try `NM` on both records; on any
`KeyError` fall back to `nM` on both records; if that also fails return
`False`.  The `try` covers both lookups, so the `NM` branch is taken only when
both records carry `NM`. -/
def perfect_alignments (read1 read2 : AlignedSegment) (mm : Int) : Bool :=
  match read1.tagNM, read2.tagNM with
  | some e1, some e2 => perfectCheck read1 read2 e1 e2 mm
  | _, _ =>
    match read1.tagnM, read2.tagnM with
    | some e1, some e2 => perfectCheck read1 read2 e1 e2 mm
    | _, _ => false

/-- The three-way outcome of the per-pair branch structure of `evaluate`:
`Discard` = the `pass` branch (line 132), `KeepAmbiguous` = the ambiguous
print branch (lines 135-136), `KeepUnmapped` = the both-unmapped print branch
(lines 138-139). -/
inductive Outcome where
  | Discard : Outcome
  | KeepUnmapped : Outcome
  | KeepAmbiguous : Outcome
deriving DecidableEq

/-- The classification decision of `evaluate` for one pair (lines 123-139):
`if not (pair[0].is_unmapped and pair[1].is_unmapped)` then discard exactly
when `both_mapped and mated and perfect_alignments`, else keep as ambiguous;
otherwise keep as unmapped. -/
def classify (read1 read2 : AlignedSegment) (mm : Int) (stype : String) : Outcome :=
  if !(read1.is_unmapped && read2.is_unmapped) then
    if both_mapped read1 read2 && mated read1 read2 stype &&
        perfect_alignments read1 read2 mm then
      Outcome.Discard
    else
      Outcome.KeepAmbiguous
  else
    Outcome.KeepUnmapped

/-- Skip condition of the mate-1 pull loop (line 22):
`(read1.is_secondary and not read1.is_read1) or read1.flag & 2048`. -/
def skip1 (r : AlignedSegment) : Bool :=
  (r.is_secondary && !r.is_read1) || r.is_supplementary

/-- Skip condition of the mate-2 pull loop (line 27):
`(read2.is_secondary and not read2.is_read2) or read2.flag & 2048`. -/
def skip2 (r : AlignedSegment) : Bool :=
  (r.is_secondary && !r.is_read2) || r.is_supplementary

/-- How the `read_bam` generator terminates, as seen by its consumer.
`cleanEnd` models a normal generator return (no statement in `read_bam`
produces it: the `while read1:` loop only exits via an exception);
`pairMismatch q1 q2` models the `ValueError` raised at line 32 after logging
both query names; `streamExhausted` models the `RuntimeError` that PEP 479
(Python >= 3.7) raises when `bamiter.__next__()` hits end of stream inside
the generator body. -/
inductive BamEnd where
  | cleanEnd : BamEnd
  | pairMismatch : String → String → BamEnd
  | streamExhausted : BamEnd
deriving DecidableEq

theorem length_dropWhile_le (p : α → Bool) (l : List α) :
    (l.dropWhile p).length ≤ l.length := by
  induction l with
  | nil => simp [List.dropWhile]
  | cons a l ih =>
    by_cases h : p a
    · simpa [List.dropWhile, h] using Nat.le_succ_of_le ih
    · simp [List.dropWhile, h]

/-- The body of the `while read1:` loop of `read_bam` (lines 21-39), with
`read1` the record pulled for step 1 (the skip loop has not yet run on it) and
`rest` the remaining stream.  Each `next()`-with-skip-loop is rendered as a
`dropWhile`: it yields the first non-skipped record, and exhaustion at any
pull inside the loop (including the skip re-pulls) is `streamExhausted`.
Returns the pairs yielded before termination together with the terminator. -/
def readBamGo (read1 : AlignedSegment) (rest : List AlignedSegment) :
    List (AlignedSegment × AlignedSegment) × BamEnd :=
  match h1 : (read1 :: rest).dropWhile skip1 with
  | [] => ([], BamEnd.streamExhausted)
  | r1 :: rest1 =>
    match h2 : rest1.dropWhile skip2 with
    | [] => ([], BamEnd.streamExhausted)
    | r2 :: rest2 =>
      if r1.query_name ≠ r2.query_name then
        ([], BamEnd.pairMismatch r1.query_name r2.query_name)
      else
        match h3 : rest2.dropWhile (fun r => r.is_secondary) with
        | [] => ([(r1, r2)], BamEnd.streamExhausted)
        | r1' :: rest' =>
          let out := readBamGo r1' rest'
          ((r1, r2) :: out.1, out.2)
termination_by rest.length
decreasing_by
  have e1 : (r1 :: rest1).length ≤ (read1 :: rest).length := by
    rw [← h1]; exact length_dropWhile_le _ _
  have e2 : (r2 :: rest2).length ≤ rest1.length := by
    rw [← h2]; exact length_dropWhile_le _ _
  have e3 : (r1' :: rest').length ≤ rest2.length := by
    rw [← h3]; exact length_dropWhile_le _ _
  simp only [List.length_cons] at e1 e2 e3
  omega

/-- `read_bam` (lines 14-39) over a finite record stream: the initial pull at
line 18 on an empty stream already exhausts (under PEP 479 this too is a
`RuntimeError`), otherwise the loop body runs. -/
def read_bam (recs : List AlignedSegment) :
    List (AlignedSegment × AlignedSegment) × BamEnd :=
  match recs with
  | [] => ([], BamEnd.streamExhausted)
  | r :: rs => readBamGo r rs

/-- The complement table `code` of `rev_comp` (line 43); `none` models the
`KeyError` raised by `code[seq[i]]` on a symbol outside the table. -/
def compChar (c : Char) : Option Char :=
  if c = 'A' then some 'T'
  else if c = 'T' then some 'A'
  else if c = 'C' then some 'G'
  else if c = 'G' then some 'C'
  else if c = 'N' then some 'N'
  else none

/-- The accumulation loop of `rev_comp` (lines 44-46): complement each
character left to right, failing on the first unknown symbol. -/
def compList : List Char → Option (List Char)
  | [] => some []
  | c :: cs => do
    let c' ← compChar c
    let cs' ← compList cs
    pure (c' :: cs')

/-- `rev_comp` (lines 42-47): returns `(new_seq[::-1], qual[::-1])` where
`new_seq` is the complemented sequence. -/
def rev_comp (seq qual : String) : Option (String × String) :=
  (compList seq.data).map
    (fun l => (String.mk l.reverse, String.mk qual.data.reverse))

/-- The orientation conditional of `print_fastq` (lines 70-73 and 76-79):
keep `(seq, qual)` as stored unless the record is reverse-complemented, in
which case apply `rev_comp`. -/
def normalize (seq qual : String) (rev : Bool) : Option (String × String) :=
  if rev then rev_comp seq qual else some (seq, qual)

/-- The total complement function that `compChar` computes on the five
supported symbols, used to state what `rev_comp` does. -/
def compFn (c : Char) : Char :=
  if c = 'A' then 'T'
  else if c = 'T' then 'A'
  else if c = 'C' then 'G'
  else if c = 'G' then 'C'
  else c

/-- The supported base alphabet: the keys of the `code` table (line 43). -/
def baseAlphabet : List Char := ['A', 'T', 'C', 'G', 'N']

/-- The 4-line FASTQ record written for one read by `print_fastq`
(lines 74-75 / 80-81): header, normalized sequence, separator, normalized
quality; `none` models the `KeyError` escaping from `rev_comp`. -/
def fastqStr (r : AlignedSegment) : Option String :=
  (normalize r.seq r.qual r.is_reverse).map
    (fun p => "@" ++ r.query_name ++ "\n" ++ p.1 ++ "\n+\n" ++ p.2 ++ "\n")

/-- The per-run accumulators of `evaluate` (lines 114-116) together with the
FASTQ records written so far to the two destinations (mate-1 stream and
mate-2 stream). -/
structure Counters where
  pair_count : Nat
  keep_count : Nat
  ambiguous_count : Nat
  out1 : List String
  out2 : List String
deriving DecidableEq

/-- Processing of a single pair by the loop body of `evaluate`
(lines 121-139): every pair advances `pair_count`; a kept pair writes one
FASTQ record per mate and advances the matching counter; a discarded pair
writes nothing.  `none` models a `KeyError` escaping from `rev_comp` during
printing. -/
def stepPair (mm : Int) (stype : String) (c : Counters)
    (p : AlignedSegment × AlignedSegment) : Option Counters :=
  match classify p.1 p.2 mm stype with
  | Outcome.Discard => some { c with pair_count := c.pair_count + 1 }
  | Outcome.KeepUnmapped => do
    let l1 ← fastqStr p.1
    let l2 ← fastqStr p.2
    pure { pair_count := c.pair_count + 1, keep_count := c.keep_count + 1,
           ambiguous_count := c.ambiguous_count,
           out1 := c.out1 ++ [l1], out2 := c.out2 ++ [l2] }
  | Outcome.KeepAmbiguous => do
    let l1 ← fastqStr p.1
    let l2 ← fastqStr p.2
    pure { pair_count := c.pair_count + 1, keep_count := c.keep_count,
           ambiguous_count := c.ambiguous_count + 1,
           out1 := c.out1 ++ [l1], out2 := c.out2 ++ [l2] }

/-- A concrete mapped, primary, forward mate-1 record satisfying the
perfect-alignment criteria against itself at threshold 0; concrete inputs for
the theorems below are built from it by field updates. -/
def baseRec : AlignedSegment :=
  { query_name := "q", is_secondary := false, is_read1 := true,
    is_read2 := false, is_supplementary := false, is_reverse := false,
    is_unmapped := false, rname := 0, isize := 0, cigar := [(0, 4)],
    tagNM := some 0, tagnM := none, seq := "ACGT", qual := "IIII" }

/-- C2: a pair with both records unmapped is classified `KeepUnmapped`
whatever its other fields, the mismatch threshold and the sample type, and
processing it emits one FASTQ record to each destination and advances the
kept-unmapped counter. -/
theorem claim_C2_both_unmapped (r1 r2 : AlignedSegment) (mm : Int) (stype : String)
    (h1 : r1.is_unmapped = true) (h2 : r2.is_unmapped = true) :
    classify r1 r2 mm stype = Outcome.KeepUnmapped ∧
    ∀ (c : Counters) (l1 l2 : String),
      fastqStr r1 = some l1 → fastqStr r2 = some l2 →
      stepPair mm stype c (r1, r2) =
        some { pair_count := c.pair_count + 1, keep_count := c.keep_count + 1,
               ambiguous_count := c.ambiguous_count,
               out1 := c.out1 ++ [l1], out2 := c.out2 ++ [l2] } := by
  have hc : classify r1 r2 mm stype = Outcome.KeepUnmapped := by
    simp [classify, h1, h2]
  refine ⟨hc, ?_⟩
  intro c l1 l2 hl1 hl2
  simp [stepPair, hc, hl1, hl2]

theorem claim_C2_witness :
    classify { baseRec with is_unmapped := true }
      { baseRec with is_unmapped := true, is_read1 := false, is_read2 := true }
      3 "RNA" = Outcome.KeepUnmapped :=
  (claim_C2_both_unmapped _ _ 3 "RNA" rfl rfl).1

/-- C1 as stated is false: the claim says a half-mapped pair is always
classified `KeepAmbiguous`, but neither `mated` nor `perfect_alignments`
consults the unmapped flag, so an unmapped record that still carries a
matching reference id, a single match-operation CIGAR and an in-threshold
edit-distance tag lets the pair satisfy all three discard criteria.  Concrete
counterexample: `read1` unmapped but otherwise alignment-like, `read2`
mapped, threshold 0, sample type DNA — the pair is discarded. -/
theorem claim_C1_counterexample :
    ({ baseRec with is_unmapped := true } : AlignedSegment).is_unmapped = true ∧
    (baseRec : AlignedSegment).is_unmapped = false ∧
    classify { baseRec with is_unmapped := true } baseRec 0 "DNA" =
      Outcome.Discard := by
  decide

/-- C1 amended: a pair with exactly one record unmapped is never classified
`KeepUnmapped`; it is discarded when `mated` and `perfect_alignments` both
hold (possible even with an unmapped member, since those predicates inspect
reference id, insert size, CIGAR and tags but never the unmapped flag), and
otherwise it is classified `KeepAmbiguous`, emitted to both destinations and
counted in the ambiguous counter. -/
theorem claim_C1_half_mapped (r1 r2 : AlignedSegment) (mm : Int) (stype : String)
    (h : r1.is_unmapped ≠ r2.is_unmapped) :
    classify r1 r2 mm stype ≠ Outcome.KeepUnmapped ∧
    ((mated r1 r2 stype && perfect_alignments r1 r2 mm) = true →
      classify r1 r2 mm stype = Outcome.Discard) ∧
    ((mated r1 r2 stype && perfect_alignments r1 r2 mm) = false →
      classify r1 r2 mm stype = Outcome.KeepAmbiguous ∧
      ∀ (c : Counters) (l1 l2 : String),
        fastqStr r1 = some l1 → fastqStr r2 = some l2 →
        stepPair mm stype c (r1, r2) =
          some { pair_count := c.pair_count + 1, keep_count := c.keep_count,
                 ambiguous_count := c.ambiguous_count + 1,
                 out1 := c.out1 ++ [l1], out2 := c.out2 ++ [l2] }) := by
  have hb : (r1.is_unmapped && r2.is_unmapped) = false := by
    cases hr1 : r1.is_unmapped <;> cases hr2 : r2.is_unmapped <;>
      simp_all
  refine ⟨?_, ?_, ?_⟩
  · simp [classify, hb, both_mapped]
    split <;> simp
  · intro hmp
    simp [classify, hb, both_mapped, hmp]
  · intro hmp
    have hc : classify r1 r2 mm stype = Outcome.KeepAmbiguous := by
      simp [classify, hb, both_mapped, hmp]
    refine ⟨hc, ?_⟩
    intro c l1 l2 hl1 hl2
    simp [stepPair, hc, hl1, hl2]

theorem claim_C1_witness :
    classify { baseRec with is_unmapped := true, tagNM := none } baseRec
      0 "DNA" = Outcome.KeepAmbiguous :=
  ((claim_C1_half_mapped { baseRec with is_unmapped := true, tagNM := none }
      baseRec 0 "DNA" (by decide)).2.2 (by decide)).1

/-- C3: for sample type DNA and records sharing a reference id, `mated` holds
exactly when the absolute insert size is strictly below the window of 500;
for sample type RNA `mated` is same-reference-id only; with the other
perfect-alignment criteria satisfied, absolute insert size 499 yields
`Discard` while 500 yields `KeepAmbiguous`, and no DNA pair with absolute
insert size at or above the window is ever discarded. -/
theorem claim_C3_mated_window :
    (∀ (r1 r2 : AlignedSegment), r1.rname = r2.rname →
      (mated r1 r2 "DNA" = true ↔ r1.isize.natAbs < window)) ∧
    (∀ (r1 r2 : AlignedSegment),
      (mated r1 r2 "RNA" = true ↔ r1.rname = r2.rname)) ∧
    (∀ (r1 r2 : AlignedSegment) (mm : Int), window ≤ r1.isize.natAbs →
      classify r1 r2 mm "DNA" ≠ Outcome.Discard) ∧
    classify { baseRec with isize := 499 } baseRec 0 "DNA" = Outcome.Discard ∧
    classify { baseRec with isize := 500 } baseRec 0 "DNA" =
      Outcome.KeepAmbiguous := by
  refine ⟨?_, ?_, ?_, by decide, by decide⟩
  · intro r1 r2 hr
    simp [mated, hr]
  · intro r1 r2
    simp [mated]
  · intro r1 r2 mm hge hcl
    have hm : mated r1 r2 "DNA" = false := by
      simp [mated, Nat.not_lt.mpr hge]
    simp [classify, hm] at hcl
    split at hcl <;> simp_all

theorem claim_C3_witness :
    (mated baseRec baseRec "DNA" = true ↔ baseRec.isize.natAbs < window) :=
  claim_C3_mated_window.1 baseRec baseRec rfl

/-- C4 as stated is false: a pair carrying neither edit-distance tag does
make `perfect_alignments` false, but when both records are also unmapped the
pair is classified `KeepUnmapped`, not `KeepAmbiguous`.  Concrete
counterexample: both records unmapped with no `NM`/`nM` tag and a
single-operation full-length match CIGAR. -/
theorem claim_C4_counterexample :
    perfect_alignments { baseRec with is_unmapped := true, tagNM := none }
      { baseRec with is_unmapped := true, tagNM := none } 0 = false ∧
    classify { baseRec with is_unmapped := true, tagNM := none }
      { baseRec with is_unmapped := true, tagNM := none } 0 "DNA" =
      Outcome.KeepUnmapped ∧
    Outcome.KeepUnmapped ≠ Outcome.KeepAmbiguous := by
  decide

/-- C4 amended: when neither record carries an `NM` or `nM` tag,
`perfect_alignments` is false (no error is raised), the pair is never
discarded, and — unless both records are unmapped, in which case it is
classified `KeepUnmapped` — it is classified `KeepAmbiguous`, even with
single full-length match-class CIGARs on both records. -/
theorem claim_C4_no_tags (r1 r2 : AlignedSegment) (mm : Int) (stype : String)
    (h1 : r1.tagNM = none) (h2 : r1.tagnM = none)
    (h3 : r2.tagNM = none) (h4 : r2.tagnM = none) :
    perfect_alignments r1 r2 mm = false ∧
    classify r1 r2 mm stype ≠ Outcome.Discard ∧
    (¬(r1.is_unmapped = true ∧ r2.is_unmapped = true) →
      classify r1 r2 mm stype = Outcome.KeepAmbiguous) := by
  have hp : perfect_alignments r1 r2 mm = false := by
    simp [perfect_alignments, h1, h2, h3, h4]
  refine ⟨hp, ?_, ?_⟩
  · simp [classify, hp]
    split <;> simp
  · intro hu
    have hb : (r1.is_unmapped && r2.is_unmapped) = false := by
      cases hr1 : r1.is_unmapped <;> cases hr2 : r2.is_unmapped <;> simp_all
    simp [classify, hb, hp]

theorem claim_C4_witness :
    classify { baseRec with tagNM := none } { baseRec with tagNM := none }
      5 "DNA" = Outcome.KeepAmbiguous :=
  (claim_C4_no_tags { baseRec with tagNM := none }
      { baseRec with tagNM := none } 5 "DNA" rfl rfl rfl rfl).2.2 (by decide)

/-- C10 as stated is false for the same reason as C4: mixed tag conventions
(`NM` only on one record, `nM` only on the other) do make
`perfect_alignments` false, but a both-unmapped such pair is classified
`KeepUnmapped`, not `KeepAmbiguous`.  Concrete counterexample below. -/
theorem claim_C10_counterexample :
    perfect_alignments
      { baseRec with is_unmapped := true }
      { baseRec with is_unmapped := true, tagNM := none, tagnM := some 0 }
      0 = false ∧
    classify { baseRec with is_unmapped := true }
      { baseRec with is_unmapped := true, tagNM := none, tagnM := some 0 }
      0 "DNA" = Outcome.KeepUnmapped ∧
    Outcome.KeepUnmapped ≠ Outcome.KeepAmbiguous := by
  decide

/-- C10 amended: when one record of the pair carries only the bwa-style `NM`
tag and its mate carries only the STAR-style `nM` tag — in either
orientation: `NM` on the first record and `nM` on the second, or `nM` on the
first and `NM` on the second — the paired tag lookup fails both ways (`NM`
is tried on both records, then `nM` on both records), so
`perfect_alignments` is false and the pair is never discarded; unless both
records are unmapped (then `KeepUnmapped`), it is classified
`KeepAmbiguous`. -/
theorem claim_C10_mixed_tags (r1 r2 : AlignedSegment) (mm : Int)
    (stype : String) (e1 e2 : Int)
    (h : (r1.tagNM = some e1 ∧ r1.tagnM = none ∧
          r2.tagNM = none ∧ r2.tagnM = some e2) ∨
         (r1.tagNM = none ∧ r1.tagnM = some e1 ∧
          r2.tagNM = some e2 ∧ r2.tagnM = none)) :
    perfect_alignments r1 r2 mm = false ∧
    classify r1 r2 mm stype ≠ Outcome.Discard ∧
    (¬(r1.is_unmapped = true ∧ r2.is_unmapped = true) →
      classify r1 r2 mm stype = Outcome.KeepAmbiguous) := by
  have hp : perfect_alignments r1 r2 mm = false := by
    rcases h with ⟨h1, h2, h3, h4⟩ | ⟨h1, h2, h3, h4⟩ <;>
      simp [perfect_alignments, h1, h2, h3, h4]
  refine ⟨hp, ?_, ?_⟩
  · simp [classify, hp]
    split <;> simp
  · intro hu
    have hb : (r1.is_unmapped && r2.is_unmapped) = false := by
      cases hr1 : r1.is_unmapped <;> cases hr2 : r2.is_unmapped <;> simp_all
    simp [classify, hb, hp]

theorem claim_C10_witness :
    classify { baseRec with tagNM := none, tagnM := some 1 } baseRec
      9 "RNA" = Outcome.KeepAmbiguous :=
  (claim_C10_mixed_tags { baseRec with tagNM := none, tagnM := some 1 }
      baseRec 9 "RNA" 1 0 (Or.inr ⟨rfl, rfl, rfl, rfl⟩)).2.2 (by decide)

theorem compChar_eq_compFn (c : Char) (h : c ∈ baseAlphabet) :
    compChar c = some (compFn c) := by
  simp only [baseAlphabet, List.mem_cons, List.not_mem_nil, or_false] at h
  rcases h with h | h | h | h | h <;> subst h <;> decide

theorem compFn_mem_baseAlphabet (c : Char) (h : c ∈ baseAlphabet) :
    compFn c ∈ baseAlphabet := by
  simp only [baseAlphabet, List.mem_cons, List.not_mem_nil, or_false] at h ⊢
  rcases h with h | h | h | h | h <;> subst h <;> decide

theorem compFn_compFn (c : Char) : compFn (compFn c) = c := by
  by_cases hA : c = 'A'
  · subst hA; decide
  by_cases hT : c = 'T'
  · subst hT; decide
  by_cases hC : c = 'C'
  · subst hC; decide
  by_cases hG : c = 'G'
  · subst hG; decide
  simp [compFn, hA, hT, hC, hG]

theorem compList_eq_map (l : List Char) (h : ∀ c ∈ l, c ∈ baseAlphabet) :
    compList l = some (l.map compFn) := by
  induction l with
  | nil => rfl
  | cons c cs ih =>
    have hc : c ∈ baseAlphabet := h c (List.mem_cons_self c cs)
    have hcs : ∀ x ∈ cs, x ∈ baseAlphabet := fun x hx => h x (List.mem_cons_of_mem c hx)
    simp [compList, compChar_eq_compFn c hc, ih hcs]

theorem string_mk_data (s : String) : String.mk s.data = s := by
  cases s
  rfl

theorem map_compFn_compFn (l : List Char) : l.map (compFn ∘ compFn) = l := by
  induction l with
  | nil => rfl
  | cons c cs ih => simp [Function.comp, compFn_compFn, ih]

/-- C5: for a sequence over the alphabet A, T, C, G, N and a quality string
of the same length, `rev_comp` succeeds and applying it to its own output
returns the original pair: the combined complement-and-reverse operation is
an involution. -/
theorem claim_C5_involution (seq qual : String)
    (hs : ∀ c ∈ seq.data, c ∈ baseAlphabet) (hl : seq.length = qual.length) :
    ∃ s' q', rev_comp seq qual = some (s', q') ∧
      rev_comp s' q' = some (seq, qual) := by
  refine ⟨String.mk (seq.data.map compFn).reverse,
          String.mk qual.data.reverse, ?_, ?_⟩
  · simp [rev_comp, compList_eq_map seq.data hs]
  · have hs' : ∀ c ∈ (seq.data.map compFn).reverse, c ∈ baseAlphabet := by
      intro c hc
      rw [List.mem_reverse] at hc
      rcases List.mem_map.mp hc with ⟨a, ha, rfl⟩
      exact compFn_mem_baseAlphabet a (hs a ha)
    simp [rev_comp, compList_eq_map _ hs', List.reverse_reverse,
      string_mk_data, map_compFn_compFn]

theorem claim_C5_witness :
    ∃ s' q', rev_comp "ACGT" "!!!!" = some (s', q') ∧
      rev_comp s' q' = some ("ACGT", "!!!!") :=
  claim_C5_involution "ACGT" "!!!!" (by decide) (by decide)

/-- C6: `normalize` returns its input unchanged when the reverse flag is
false; when the flag is true it complements each base per the fixed table
embodied by `compFn` (A to T, T to A, C to G, G to C, N to N) and reverses
both strings, the quality string being reversed only; on the worked example
the sequence AACG becomes CGTT and the quality string is reversed. -/
theorem claim_C6_normalize :
    (∀ (s q : String), normalize s q false = some (s, q)) ∧
    normalize "AACG" "!!#!" true = some ("CGTT", "!#!!") ∧
    (∀ (s q : String), (∀ c ∈ s.data, c ∈ baseAlphabet) →
      normalize s q true =
        some (String.mk (s.data.map compFn).reverse,
              String.mk q.data.reverse)) := by
  refine ⟨fun s q => rfl, by decide, ?_⟩
  intro s q hs
  simp [normalize, rev_comp, compList_eq_map s.data hs]

theorem claim_C6_witness :
    normalize "A" "!" true =
      some (String.mk (("A" : String).data.map compFn).reverse,
            String.mk (("!" : String).data.reverse)) :=
  claim_C6_normalize.2.2 "A" "!" (by decide)

/-- C7: when the two consecutive primary records selected as mate-1 and
mate-2 carry different query names, the assembler terminates at once with the
pair-mismatch error carrying both offending query names, and no pair is
emitted for those records (the generator raises `ValueError` after logging
both names, which aborts the run). -/
theorem claim_C7_pair_mismatch (r1 r2 : AlignedSegment)
    (rest : List AlignedSegment)
    (h1 : skip1 r1 = false) (h2 : skip2 r2 = false)
    (hq : r1.query_name ≠ r2.query_name) :
    read_bam (r1 :: r2 :: rest) =
      ([], BamEnd.pairMismatch r1.query_name r2.query_name) := by
  have d1 : List.dropWhile skip1 (r1 :: r2 :: rest) = r1 :: r2 :: rest :=
    List.dropWhile_cons_of_neg (by simp [h1])
  have d2 : List.dropWhile skip2 (r2 :: rest) = r2 :: rest :=
    List.dropWhile_cons_of_neg (by simp [h2])
  rw [read_bam, readBamGo]
  split
  · simp_all
  · rename_i r1' rest1 heq
    rw [d1] at heq
    cases heq
    split
    · simp_all
    · rename_i r2' rest2 heq2
      rw [d2] at heq2
      cases heq2
      simp [hq]

theorem claim_C7_witness :
    read_bam [{ baseRec with query_name := "alpha" },
              { baseRec with query_name := "beta", is_read1 := false, is_read2 := true }] =
      ([], BamEnd.pairMismatch "alpha" "beta") :=
  claim_C7_pair_mismatch { baseRec with query_name := "alpha" }
    { baseRec with query_name := "beta", is_read1 := false, is_read2 := true }
    [] rfl rfl (by decide)

/-- C8 is a code bug: the spec says stream exhaustion during any pull ends
the pair sequence cleanly with no escaping error, but `read_bam` is a Python
generator that calls `bamiter.__next__()` directly, so under Python >= 3.7
(PEP 479) the `StopIteration` at end of stream becomes a `RuntimeError` that
escapes the generator on every termination path — including after a
well-formed final pair.  This theorem evaluates the model at such a stream:
the pair is produced, but the terminator is the exhaustion error, never
`cleanEnd` (so `evaluate` aborts and `main` never reaches its summary
logging, contradicting the program's own reporting logic). -/
theorem claim_C8_eof_error :
    read_bam [baseRec,
              { baseRec with is_read1 := false, is_read2 := true }] =
      ([(baseRec, { baseRec with is_read1 := false, is_read2 := true })],
        BamEnd.streamExhausted) ∧
    BamEnd.streamExhausted ≠ BamEnd.cleanEnd := by
  refine ⟨?_, by decide⟩
  have d1 : List.dropWhile skip1
      [baseRec, { baseRec with is_read1 := false, is_read2 := true }] =
      [baseRec, { baseRec with is_read1 := false, is_read2 := true }] := by
    decide
  have d2 : List.dropWhile skip2
      [({ baseRec with is_read1 := false, is_read2 := true } :
        AlignedSegment)] =
      [{ baseRec with is_read1 := false, is_read2 := true }] := by
    decide
  rw [read_bam, readBamGo]
  split
  · rename_i heq
    rw [d1] at heq
    simp at heq
  · rename_i r1' rest1 heq
    rw [d1] at heq
    cases heq
    split
    · rename_i heq2
      rw [d2] at heq2
      simp at heq2
    · rename_i r2' rest2 heq2
      rw [d2] at heq2
      cases heq2
      simp [List.dropWhile]

/-- C9: a stream holding a single primary mate-1 candidate and nothing else
terminates with the exhaustion error (the `RuntimeError` produced by PEP 479
from the `StopIteration` of the mate-2 pull at line 25), not with a silent
empty result: no pair is emitted and the terminator is an error distinct from
a clean end of stream. -/
theorem claim_C9_mid_pair (r1 : AlignedSegment) (h : skip1 r1 = false) :
    read_bam [r1] = ([], BamEnd.streamExhausted) ∧
    BamEnd.streamExhausted ≠ BamEnd.cleanEnd := by
  refine ⟨?_, by decide⟩
  have d1 : List.dropWhile skip1 [r1] = [r1] :=
    List.dropWhile_cons_of_neg (by simp [h])
  rw [read_bam, readBamGo]
  split
  · simp_all
  · rename_i r1' rest1 heq
    rw [d1] at heq
    cases heq
    split
    · simp
    · rename_i r2' rest2 heq2
      simp [List.dropWhile] at heq2

theorem claim_C9_witness :
    read_bam [baseRec] = ([], BamEnd.streamExhausted) ∧
    BamEnd.streamExhausted ≠ BamEnd.cleanEnd :=
  claim_C9_mid_pair baseRec rfl

end MouseFilter
